import Mathlib

/-!
Verification development for the `google-search` repository.

The definitions below are a shallow embedding of the TypeScript source
(`src/search.ts`, given as `src/unnamed/part_000`): the fingerprint
generation function `getHostMachineConfig`, the in-page result-extraction
callback of `googleSearch`, and the orchestration logic of
`performSearch` / `performSearchAndGetHtml` (browser lifecycle, challenge
escalation, state persistence).  Browser/DOM interactions are modelled as
oracles: a `Page` answers the DOM queries the extraction callback makes,
and an `Oracle` answers the runtime questions the orchestrator asks
(challenge detected?, pipeline outcome, persistence success).
-/

set_option maxHeartbeats 1000000

namespace GoogleSearch

/-- JavaScript `a || b` on strings: the empty string is falsy. -/
def jsOr (a b : String) : String :=
  if a = "" then b else a

/-- Color scheme values, `"dark" | "light"` in the source. -/
inductive ColorScheme where
  | dark
  | light
deriving DecidableEq, Repr

/-- Reduced-motion values, `"reduce" | "no-preference"` in the source. -/
inductive ReducedMotion where
  | reduce
  | noPreference
deriving DecidableEq, Repr

/-- Forced-colors values, `"active" | "none"` in the source. -/
inductive ForcedColors where
  | active
  | none
deriving DecidableEq, Repr

/-- The `FingerprintConfig` interface of the source. -/
structure FingerprintConfig where
  deviceName : String
  locale : String
  timezoneId : String
  colorScheme : ColorScheme
  reducedMotion : ReducedMotion
  forcedColors : ForcedColors
deriving DecidableEq, Repr

/-- The `SavedState` interface of the source: both fields optional. -/
structure SavedState where
  fingerprint : Option FingerprintConfig := none
  googleDomain : Option String := none
deriving DecidableEq, Repr

/-- Host signals read by `getHostMachineConfig`: `process.env.LANG`
(empty string when unset, matching JS falsiness), the value of
`new Date().getTimezoneOffset()` in minutes, the value of
`new Date().getHours()`, and `os.platform()`. -/
structure HostEnv where
  envLang : String
  timezoneOffset : Int
  hour : Nat
  platform : String
deriving DecidableEq, Repr

/-- Timezone inference chain of `getHostMachineConfig` (lines 36-59 of
the source), transcribed condition for condition. -/
def tzFromOffset (o : Int) : String :=
  if o ≤ -480 ∧ o > -600 then "Asia/Shanghai"
  else if o ≤ -540 then "Asia/Seoul"
  else if o ≤ -420 ∧ o > -480 then "Asia/Bangkok"
  else if o ≤ 0 ∧ o > -60 then "Europe/London"
  else if o ≤ 60 ∧ o > 0 then "Europe/Berlin"
  else if o ≤ 300 ∧ o > 240 then "America/New_York"
  else "Asia/Seoul"

/-- Platform-based device selection of the source (lines 74-86), which
the source then unconditionally overrides with `"Desktop Chrome"`. -/
def platformDevice (platform : String) : String :=
  if platform = "darwin" then "Desktop Safari"
  else if platform = "win32" then "Desktop Edge"
  else if platform = "linux" then "Desktop Firefox"
  else "Desktop Chrome"

/-- Shallow embedding of `getHostMachineConfig` (lines 30-99).  The
`userLocale` argument keeps JS semantics: an empty string falls through
to `process.env.LANG` and then to `"ko-KR"`. -/
def getHostMachineConfig (host : HostEnv) (userLocale : String) : FingerprintConfig :=
  let systemLocale := jsOr userLocale (jsOr host.envLang "ko-KR")
  let timezoneId := tzFromOffset host.timezoneOffset
  let colorScheme :=
    if host.hour ≥ 19 ∨ host.hour < 7 then ColorScheme.dark else ColorScheme.light
  let reducedMotion := ReducedMotion.noPreference
  let forcedColors := ForcedColors.none
  -- the platform-derived device name is computed but then overridden
  let _ := platformDevice host.platform
  let deviceName := "Desktop Chrome"
  { deviceName := deviceName
    locale := systemLocale
    timezoneId := timezoneId
    colorScheme := colorScheme
    reducedMotion := reducedMotion
    forcedColors := forcedColors }

/-- One offset-range → timezone mapping, phrased as the spec describes
it: an optional exclusive lower bound, an inclusive upper bound, and the
timezone name.  This is the spec-side view of the if-chain. -/
structure TzRange where
  lo : Option Int
  hi : Int
  tz : String
deriving DecidableEq, Repr

/-- Membership of an offset in a range: `o ≤ hi` and, when a lower bound
is present, `lo < o`. -/
def TzRange.holds (r : TzRange) (o : Int) : Bool :=
  decide (o ≤ r.hi) && (match r.lo with
    | Option.none => true
    | Option.some lo => decide (lo < o))

/-- The fixed ordered table of offset ranges, read off the source's
if-chain in order. -/
def tzRanges : List TzRange :=
  [ { lo := Option.some (-600), hi := -480, tz := "Asia/Shanghai" },
    { lo := Option.none, hi := -540, tz := "Asia/Seoul" },
    { lo := Option.some (-480), hi := -420, tz := "Asia/Bangkok" },
    { lo := Option.some (-60), hi := 0, tz := "Europe/London" },
    { lo := Option.some 0, hi := 60, tz := "Europe/Berlin" },
    { lo := Option.some 240, hi := 300, tz := "America/New_York" } ]

/-- First-match lookup over a range table, as the spec words it: ties
broken by the first matching range, default `Asia/Seoul`. -/
def tzLookup (o : Int) : List TzRange → String
  | [] => "Asia/Seoul"
  | r :: rest => if r.holds o then r.tz else tzLookup o rest

/-- Spec-side timezone inference: first matching range of the fixed
ordered table wins. -/
def inferTimezone (o : Int) : String :=
  tzLookup o tzRanges

/-- The `SearchResult` record: title, link, snippet. -/
structure SearchResult where
  title : String
  link : String
  snippet : String
deriving DecidableEq, Repr

/-- The `SearchResponse` record returned by `googleSearch`. -/
structure SearchResponse where
  query : String
  results : List SearchResult
deriving DecidableEq, Repr

/-! ## Extraction model

The in-page `page.evaluate` callback (lines 793-923 of the source) is a
pure function of the rendered DOM.  The DOM is modelled by oracles that
answer exactly the queries the callback makes: `Container.titleFor` is
`container.querySelector(titleSelector)`, `Container.snippetFor` is
`container.querySelector(snippetSelector)`, and so on. -/

/-- The title element found inside a result container: its text, the
href of an anchor inside it (`titleElement.querySelector` of an anchor,
if any), and the href of the nearest enclosing anchor element (the
parent-walk of lines 833-838), if any. -/
structure TitleElem where
  text : String
  linkInTitle : Option String
  ancestorAnchor : Option String
deriving DecidableEq, Repr

/-- A `div` descendant of a container, as seen by the generic snippet
fallback (lines 867-874): whether it contains an `h3`, and its text. -/
structure DivNode where
  hasH3 : Bool
  text : String
deriving DecidableEq, Repr

/-- A result container as seen by the extraction callback.  `titleFor`
and `snippetFor` answer `querySelector` for a given selector string;
`firstAnchorHref` is the href of the first anchor inside the container,
if any. -/
structure Container where
  titleFor : String → Option TitleElem
  snippetFor : String → Option String
  firstAnchorHref : Option String
  divNodes : List DivNode

/-- An anchor element as seen by the fallback pass (lines 885-920): its
href, its text, and the texts of its ancestor chain (innermost first). -/
structure Anchor where
  href : String
  text : String
  ancestorTexts : List String
deriving DecidableEq, Repr

/-- The rendered page: `containersFor` answers
`document.querySelectorAll` for a container selector, in document order;
`anchors` lists all anchor elements in document order (the fallback's
`a[href^='http']` selector is modelled as a filter over them). -/
structure Page where
  containersFor : String → List Container
  anchors : List Anchor

/-- One extraction strategy descriptor of the `selectorSets` array. -/
structure SelectorSet where
  container : String
  title : String
  snippet : String
deriving DecidableEq, Repr

/-- The `selectorSets` array of the callback (lines 798-803). -/
def selectorSets : List SelectorSet :=
  [ { container := "#search div[data-hveid]", title := "h3", snippet := ".VwiC3b" },
    { container := "#rso div[data-hveid]", title := "h3", snippet := "[data-sncf=\"1\"]" },
    { container := ".g", title := "h3", snippet := "div[style*=\"webkit-line-clamp\"]" },
    { container := "div[jscontroller][data-hveid]", title := "h3", snippet := "div[role=\"text\"]" } ]

/-- The `alternativeSnippetSelectors` array (lines 806-811). -/
def alternativeSnippetSelectors : List String :=
  [ ".VwiC3b",
    "[data-sncf=\"1\"]",
    "div[style*=\"webkit-line-clamp\"]",
    "div[role=\"text\"]" ]

/-- Accumulator of the callback: the `results` array and the `seenUrls`
set (modelled as the list of links in insertion order). -/
structure ExtractState where
  results : List SearchResult
  seen : List String
deriving Repr

/-- Helper for trimming: drop leading whitespace characters. -/
def dropWs : List Char → List Char
  | [] => []
  | c :: cs => if c.isWhitespace then dropWs cs else c :: cs

/-- Model of JS `String.prototype.trim`, computed on the character
list so that concrete instances evaluate. -/
def jsTrim (s : String) : String :=
  ⟨(dropWs (dropWs s.data.reverse).reverse)⟩

/-- Model of JS `String.prototype.startsWith`. -/
def jsStartsWith (s pre : String) : Bool :=
  List.isPrefixOf pre.data s.data

/-- Helper for the substring test: does `pat` occur in the list? -/
def subAt (pat : List Char) : List Char → Bool
  | [] => List.isEmpty pat
  | c :: cs => List.isPrefixOf pat (c :: cs) || subAt pat cs

/-- Model of JS `String.prototype.includes`. -/
def strContains (s pat : String) : Bool :=
  subAt pat.data s.data

/-- Link resolution for a container (lines 828-845): anchor inside the
title node, else nearest ancestor anchor of the title node, else first
anchor inside the container, else the empty string. -/
def resolveLink (c : Container) (t : TitleElem) : String :=
  match t.linkInTitle with
  | Option.some h => h
  | Option.none =>
    match t.ancestorAnchor with
    | Option.some h => h
    | Option.none =>
      match c.firstAnchorHref with
      | Option.some h => h
      | Option.none => ""

/-- First alternative snippet selector that matches an element in the
container (lines 857-863). -/
def firstAltSnippet (c : Container) : List String → Option String
  | [] => Option.none
  | s :: rest =>
    match c.snippetFor s with
    | Option.some t => Option.some t
    | Option.none => firstAltSnippet c rest

/-- Generic snippet fallback (lines 866-874): the first `div` descendant
containing no `h3` whose trimmed text is longer than 20 characters. -/
def genericSnippet (c : Container) : String :=
  match c.divNodes.filter (fun d => !d.hasH3 && decide (20 < (jsTrim d.text).length)) with
  | [] => ""
  | d :: _ => jsTrim d.text

/-- Snippet resolution for a container (lines 851-875): primary snippet
selector, else first alternative selector, else (when that produced the
empty string) the generic `div` fallback. -/
def resolveSnippet (sel : SelectorSet) (c : Container) : String :=
  match c.snippetFor sel.snippet with
  | Option.some t => jsTrim t
  | Option.none =>
    let alt :=
      match firstAltSnippet c alternativeSnippetSelectors with
      | Option.some t => jsTrim t
      | Option.none => ""
    if alt = "" then genericSnippet c else alt

/-- Processing of one container in the primary pass (lines 819-882):
skip if no title element; resolve the link; skip if the link is empty,
not `http`-prefixed, or already seen; resolve the snippet; push the
record only when title and link are non-empty, recording the link as
seen. -/
def processContainer (sel : SelectorSet) (c : Container) (st : ExtractState) : ExtractState :=
  match c.titleFor sel.title with
  | Option.none => st
  | Option.some t =>
    let title := jsTrim t.text
    let link := resolveLink c t
    if link = "" ∨ jsStartsWith link "http" = false ∨ link ∈ st.seen then st
    else
      let snippet := resolveSnippet sel c
      if title ≠ "" ∧ link ≠ "" then
        { results := st.results ++ [{ title := title, link := link, snippet := snippet }],
          seen := st.seen ++ [link] }
      else st

/-- Inner loop of the primary pass over the containers of one strategy,
breaking once `maxResults` is reached. -/
def runContainers (sel : SelectorSet) (maxResults : Nat) : List Container → ExtractState → ExtractState
  | [], st => st
  | c :: rest, st =>
    if maxResults ≤ st.results.length then st
    else runContainers sel maxResults rest (processContainer sel c st)

/-- Outer loop of the primary pass over the strategy descriptors,
breaking once `maxResults` is reached. -/
def runSelectorSets (page : Page) (maxResults : Nat) : List SelectorSet → ExtractState → ExtractState
  | [], st => st
  | sel :: rest, st =>
    if maxResults ≤ st.results.length then st
    else
      runSelectorSets page maxResults rest
        (runContainers sel maxResults (page.containersFor sel.container) st)

/-- Ancestor-walk snippet of the fallback pass (lines 905-915): first of
up to three ancestor texts whose trimmed text is longer than 20
characters and differs from the title. -/
def fallbackSnippet : List String → String → String
  | [], _ => ""
  | t :: rest, title =>
    let text := jsTrim t
    if 20 < text.length ∧ text ≠ title then text else fallbackSnippet rest title

/-- The fallback anchor-scan loop (lines 887-919): for each anchor in
document order, break once `maxResults` is reached; skip links that are
empty, already seen, or contain `google.com/`, `accounts.google` or
`support.google`; skip anchors with empty trimmed text; otherwise push
the record and mark the link seen. -/
def fallbackLoop (maxResults : Nat) : List Anchor → ExtractState → ExtractState
  | [], st => st
  | a :: rest, st =>
    if maxResults ≤ st.results.length then st
    else
      let link := a.href
      if link = "" ∨ link ∈ st.seen ∨ strContains link "google.com/" = true ∨
          strContains link "accounts.google" = true ∨ strContains link "support.google" = true then
        fallbackLoop maxResults rest st
      else
        let title := jsTrim a.text
        if title = "" then fallbackLoop maxResults rest st
        else
          let snippet := fallbackSnippet (a.ancestorTexts.take 3) title
          fallbackLoop maxResults rest
            { results := st.results ++ [{ title := title, link := link, snippet := snippet }],
              seen := st.seen ++ [link] }

/-- The initial accumulator: empty results, empty seen set. -/
def emptyExtract : ExtractState := { results := [], seen := [] }

/-- Result of the primary pass alone. -/
def primaryState (page : Page) (maxResults : Nat) : ExtractState :=
  runSelectorSets page maxResults selectorSets emptyExtract

/-- The anchors matching the fallback selector `a[href^='http']`. -/
def httpAnchors (page : Page) : List Anchor :=
  page.anchors.filter (fun a => jsStartsWith a.href "http")

/-- The whole extraction callback: primary pass, then — only when the
primary pass yielded fewer than `maxResults` — the fallback anchor scan,
then `slice(0, maxResults)`. -/
def extractResults (page : Page) (maxResults : Nat) : List SearchResult :=
  let st1 := primaryState page maxResults
  let st2 :=
    if st1.results.length < maxResults then fallbackLoop maxResults (httpAnchors page) st1
    else st1
  st2.results.take maxResults

/-! ## Orchestration model

`performSearch` (lines 207-1026) and `performSearchAndGetHtml` (lines
1132-1590) are modelled as functions of a `RunCfg` (the options plus
whether an external browser was supplied) and an `Oracle` answering the
runtime questions each attempt asks: was a challenge page detected, did
the assisted-mode wait succeed, what did the rest of the pipeline
(input lookup, query submission, extraction) produce, did the session
save succeed.  Each run produces its response together with a trace of
side-effect events.  Attempts are numbered: attempt `n` in automated
mode restarts as attempt `n + 1` in assisted mode on challenge.  The
three challenge checkpoints of an attempt run identical code in the
source, so the model collapses them into one `blocked` answer per
attempt. -/

/-- The `HtmlResponse` record of `getGoogleSearchPageHtml` (fields not
relevant to the claims are omitted). -/
structure HtmlResponse where
  query : String
  html : String
  url : String
deriving DecidableEq, Repr

/-- Options of a run plus whether `existingBrowser` was supplied. -/
structure RunCfg where
  query : String
  limit : Nat
  stateFile : String
  noSaveState : Bool
  locale : String
  externalBrowser : Bool
deriving DecidableEq, Repr

/-- Side-effect events of a run.  `closeMainBrowser` is
`await browser.close()` on the browser variable of the attempt (the
external instance when one was supplied, the launched one otherwise);
`launchTempBrowser`/`closeTempBrowser` are the `newBrowser` created on a
challenge while an external instance is in use.  The save events record
attempts: `saveStateAttempt` is `context.storageState(...)` and
`saveFingerprintAttempt` is `fs.writeFileSync(fingerprintFile, ...)`,
each wrapped in a try/catch in the source. -/
inductive Ev where
  | launchBrowser (headed : Bool)
  | useExternalBrowser
  | launchTempBrowser (headed : Bool)
  | closeTempBrowser
  | closePage
  | closeContext
  | closeMainBrowser
  | mkdirStateDir
  | saveStateAttempt
  | saveFingerprintAttempt (st : SavedState)
deriving DecidableEq, Repr

/-- Payload of a successful HTML fetch. -/
structure HtmlData where
  html : String
  url : String
deriving DecidableEq, Repr

/-- Runtime oracle for one run.  `blocked n` — challenge detected during
attempt `n`; `assistWaitOk n` — the assisted-mode `waitForNavigation`
succeeded; `waitErrMsg n` — the error message it threw otherwise;
`pipeline n` — outcome of the rest of attempt `n` (search-box lookup,
submission, extraction); `htmlOutcome n` — same for the HTML path;
`persistOk n` — `context.storageState` succeeded; `stateDirMissing` —
`fs.existsSync(stateDir)` was false at save time. -/
structure Oracle where
  host : HostEnv
  domainIdx : Nat
  blocked : Nat → Bool
  assistWaitOk : Nat → Bool
  waitErrMsg : Nat → String
  pipeline : Nat → Except String (List SearchResult)
  htmlOutcome : Nat → Except String HtmlData
  persistOk : Nat → Bool
  stateDirMissing : Bool

/-- The `googleDomains` candidate list of the source. -/
def googleDomains : List String :=
  [ "https://www.google.com",
    "https://www.google.co.uk",
    "https://www.google.ca",
    "https://www.google.com.au" ]

/-- Fingerprint resolution at context creation (lines 267-311): reuse
the stored fingerprint if present, otherwise generate one from the host
and record it in the saved state. -/
def resolveFingerprint (cfg : RunCfg) (o : Oracle) (ss : SavedState) : SavedState :=
  match ss.fingerprint with
  | Option.some _ => ss
  | Option.none =>
    { ss with fingerprint := Option.some (getHostMachineConfig o.host cfg.locale) }

/-- Domain selection (lines 382-392): reuse the stored domain if
present, otherwise pick a pseudo-random candidate and record it. -/
def resolveDomain (o : Oracle) (ss : SavedState) : SavedState :=
  match ss.googleDomain with
  | Option.some _ => ss
  | Option.none =>
    { ss with googleDomain :=
        Option.some (googleDomains.getD (o.domainIdx % googleDomains.length) "") }

/-- Events of the state-persistence block (lines 927-958, duplicated at
976-1000): skipped entirely under `noSaveState`; otherwise create the
state directory if missing, attempt the session save, and — only when
that did not throw — attempt the fingerprint save carrying the current
saved state.  Failures of either attempt are caught locally and only
logged, so no event distinguishes them. -/
def saveEvs (cfg : RunCfg) (o : Oracle) (n : Nat) (ss : SavedState) : List Ev :=
  if cfg.noSaveState then []
  else
    (if o.stateDirMissing then [Ev.mkdirStateDir] else []) ++
      [Ev.saveStateAttempt] ++
      (if o.persistOk n then [Ev.saveFingerprintAttempt ss] else [])

/-- Browser-release events at the end of an attempt (lines 961-966,
1002-1008): the main browser is closed only when it was not supplied
externally. -/
def closeEvs (cfg : RunCfg) : List Ev :=
  if cfg.externalBrowser then [] else [Ev.closeMainBrowser]

/-- The synthetic single-record response built by the catch block of
`performSearch` (lines 1012-1023). -/
def errorResponse (query msg : String) : SearchResponse :=
  { query := query,
    results := [{ title := "搜索失败",
                  link := "",
                  snippet := "无法完成搜索，错误信息: " ++ msg }] }

/-- Browser acquisition events at the start of an attempt (lines
211-256): reuse the external instance if supplied, else launch one
(headed exactly when not headless). -/
def acquireEvs (cfg : RunCfg) (headless : Bool) : List Ev :=
  if cfg.externalBrowser then [Ev.useExternalBrowser] else [Ev.launchBrowser (!headless)]

/-- Shared tail of an attempt that got past the challenge checkpoints:
run the pipeline; on success return `{query, results}`; on a fatal error
return the synthetic error response.  Both paths run the persistence
block and then release the browser. -/
def attemptFinish (cfg : RunCfg) (o : Oracle) (n : Nat) (ss : SavedState) (acc : List Ev) :
    SearchResponse × List Ev :=
  match o.pipeline n with
  | Except.ok rs =>
    ({ query := cfg.query, results := rs }, acc ++ saveEvs cfg o n ss ++ closeEvs cfg)
  | Except.error msg =>
    (errorResponse cfg.query msg, acc ++ saveEvs cfg o n ss ++ closeEvs cfg)

/-- An attempt of `performSearch` with `headless = false` (assisted
mode): on challenge it waits for navigation away from the challenge
markers — a timed-out wait lands in the catch block (persistence, then
release, then the synthetic response) — and never restarts. -/
def runAssisted (cfg : RunCfg) (o : Oracle) (n : Nat) (ss : SavedState) :
    SearchResponse × List Ev :=
  let acc := acquireEvs cfg false
  let ss2 := resolveDomain o (resolveFingerprint cfg o ss)
  if o.blocked n then
    if o.assistWaitOk n then attemptFinish cfg o n ss2 acc
    else
      (errorResponse cfg.query (o.waitErrMsg n),
        acc ++ saveEvs cfg o n ss2 ++ closeEvs cfg)
  else attemptFinish cfg o n ss2 acc

/-- Teardown on a challenge in automated mode (lines 418-487): close the
page and context; when the browser was supplied externally, launch a
brand-new headed browser, (the source opens a throwaway context in it
and) close it again, leaving the external instance open; otherwise close
the owned browser. -/
def challengeTeardown (cfg : RunCfg) : List Ev :=
  [Ev.closePage, Ev.closeContext] ++
    (if cfg.externalBrowser then [Ev.launchTempBrowser true, Ev.closeTempBrowser]
     else [Ev.closeMainBrowser])

/-- An attempt of `performSearch` with `headless = true` (automated
mode): on challenge, tear down and restart the whole operation as
attempt `n + 1` with `headless = false`, threading the (possibly
updated) saved state through the closure. -/
def runAuto (cfg : RunCfg) (o : Oracle) (n : Nat) (ss : SavedState) :
    SearchResponse × List Ev :=
  let acc := acquireEvs cfg true
  let ss2 := resolveDomain o (resolveFingerprint cfg o ss)
  if o.blocked n then
    let next := runAssisted cfg o (n + 1) ss2
    (next.1, acc ++ challengeTeardown cfg ++ next.2)
  else attemptFinish cfg o n ss2 acc

/-- The durable files at run start: whether the session state file
exists at `stateFile`, and the fingerprint file's content (`none` when
absent, `Except.error` when unreadable or unparsable). -/
structure FSModel where
  stateFileExists : Bool
  fingerprintFile : Option (Except Unit SavedState)
deriving Repr

/-- State loading at the start of `googleSearch` (lines 126-155): the
storage state is used, and the fingerprint file consulted, only when the
session state file exists; a corrupt fingerprint file is discarded. -/
def loadSavedState (fsm : FSModel) : Bool × SavedState :=
  if fsm.stateFileExists then
    match fsm.fingerprintFile with
    | Option.some (Except.ok st) => (true, st)
    | Option.some (Except.error _) => (true, {})
    | Option.none => (true, {})
  else (false, {})

/-- The whole `googleSearch` operation: load saved state, then run
`performSearch` starting in headless (automated) mode. -/
def googleSearchModel (cfg : RunCfg) (fsm : FSModel) (o : Oracle) :
    SearchResponse × List Ev :=
  runAuto cfg o 0 (loadSavedState fsm).2

/-- Error wrapping of `performSearchAndGetHtml` (line 1588). -/
def wrapHtmlErr (msg : String) : String :=
  "Google 검색 페이지 HTML 가져오기 실패: " ++ msg

/-- Shared tail of a `performSearchAndGetHtml` attempt: on success
return the response, on a fatal error raise the wrapped error.  Both
paths run the persistence block and always close the browser (this
operation never borrows an external instance). -/
def htmlFinish (cfg : RunCfg) (o : Oracle) (n : Nat) (ss : SavedState) (acc : List Ev) :
    Except String HtmlResponse × List Ev :=
  match o.htmlOutcome n with
  | Except.ok d =>
    (Except.ok { query := cfg.query, html := d.html, url := d.url },
      acc ++ saveEvs cfg o n ss ++ [Ev.closeMainBrowser])
  | Except.error msg =>
    (Except.error (wrapHtmlErr msg), acc ++ saveEvs cfg o n ss ++ [Ev.closeMainBrowser])

/-- An attempt of `performSearchAndGetHtml` in assisted mode. -/
def runHtmlAssisted (cfg : RunCfg) (o : Oracle) (n : Nat) (ss : SavedState) :
    Except String HtmlResponse × List Ev :=
  let acc := [Ev.launchBrowser true]
  let ss2 := resolveDomain o (resolveFingerprint cfg o ss)
  if o.blocked n then
    if o.assistWaitOk n then htmlFinish cfg o n ss2 acc
    else
      (Except.error (wrapHtmlErr (o.waitErrMsg n)),
        acc ++ saveEvs cfg o n ss2 ++ [Ev.closeMainBrowser])
  else htmlFinish cfg o n ss2 acc

/-- An attempt of `performSearchAndGetHtml` in automated mode: on
challenge it closes page, context and browser (always owned here) and
restarts in assisted mode. -/
def runHtmlAuto (cfg : RunCfg) (o : Oracle) (n : Nat) (ss : SavedState) :
    Except String HtmlResponse × List Ev :=
  let acc := [Ev.launchBrowser false]
  let ss2 := resolveDomain o (resolveFingerprint cfg o ss)
  if o.blocked n then
    let next := runHtmlAssisted cfg o (n + 1) ss2
    (next.1, acc ++ [Ev.closePage, Ev.closeContext, Ev.closeMainBrowser] ++ next.2)
  else htmlFinish cfg o n ss2 acc

/-- The whole `getGoogleSearchPageHtml` operation. -/
def getHtmlModel (cfg : RunCfg) (fsm : FSModel) (o : Oracle) :
    Except String HtmlResponse × List Ev :=
  runHtmlAuto cfg o 0 (loadSavedState fsm).2

/-! ## Timezone inference: refinement of the if-chain by the range table -/

/-- Concrete host environments used in claim instances. -/
def hostAt (off : Int) (h : Nat) : HostEnv :=
  { envLang := "", timezoneOffset := off, hour := h, platform := "linux" }

/-- The source's timezone if-chain computes exactly the first-match
lookup over the ordered range table. -/
theorem tzFromOffset_eq_inferTimezone (o : Int) : tzFromOffset o = inferTimezone o := by
  simp only [tzFromOffset, inferTimezone, tzRanges, tzLookup, TzRange.holds,
    Bool.and_eq_true, decide_eq_true_eq, Bool.and_true, gt_iff_lt]

/-- C2 (corrected): the generated identity's `timezoneId` is determined
by the fixed ordered range table with ties broken by the first matching
range, but the ranges are not mutually exclusive: the first (UTC+8)
range `(-600, -480]` and the second (UTC+9) range `(-∞, -540]` both
contain the offset `-540` (UTC+9), and first-match resolution therefore
maps `-540` to `Asia/Shanghai`, not to the UTC+9 timezone
`Asia/Seoul`. -/
theorem C2_timezone_first_match_with_overlap :
    (∀ (host : HostEnv) (u : String),
        (getHostMachineConfig host u).timezoneId = inferTimezone host.timezoneOffset) ∧
    (tzRanges.getD 0 { lo := Option.none, hi := 0, tz := "" }).holds (-540) = true ∧
    (tzRanges.getD 1 { lo := Option.none, hi := 0, tz := "" }).holds (-540) = true ∧
    (tzRanges.getD 0 { lo := Option.none, hi := 0, tz := "" }).tz = "Asia/Shanghai" ∧
    (tzRanges.getD 1 { lo := Option.none, hi := 0, tz := "" }).tz = "Asia/Seoul" ∧
    inferTimezone (-540) = "Asia/Shanghai" := by
  refine ⟨?_, by decide, by decide, by decide, by decide, by decide⟩
  intro host u
  exact tzFromOffset_eq_inferTimezone host.timezoneOffset

/-- C2 counterexample: at host offset `-540` minutes (UTC+9) the
generated `timezoneId` is `Asia/Shanghai`, not the UTC+9 timezone
`Asia/Seoul`, and the offset satisfies both the first and the second
range of the table, so the ranges are not mutually exclusive. -/
theorem C2_counterexample_offset_minus_540 :
    (getHostMachineConfig (hostAt (-540) 12) "en-US").timezoneId = "Asia/Shanghai" ∧
    (getHostMachineConfig (hostAt (-540) 12) "en-US").timezoneId ≠ "Asia/Seoul" ∧
    (tzRanges.getD 0 { lo := Option.none, hi := 0, tz := "" }).holds (-540) = true ∧
    (tzRanges.getD 1 { lo := Option.none, hi := 0, tz := "" }).holds (-540) = true := by
  decide

/-- C9 (confirmed): the generated identity's `colorScheme` is dark
exactly for wall-clock hours in `[19, 24) ∪ [0, 7)` and light otherwise;
in particular hour 2 yields dark and hour 14 yields light. -/
theorem C9_color_scheme_from_hour :
    (∀ (host : HostEnv) (u : String), host.hour < 24 →
        ((getHostMachineConfig host u).colorScheme = ColorScheme.dark ↔
          ((19 ≤ host.hour ∧ host.hour < 24) ∨ host.hour < 7))) ∧
    (getHostMachineConfig (hostAt (-540) 2) "ko-KR").colorScheme = ColorScheme.dark ∧
    (getHostMachineConfig (hostAt (-540) 14) "ko-KR").colorScheme = ColorScheme.light := by
  refine ⟨?_, by decide, by decide⟩
  intro host u h24
  have hcs : (getHostMachineConfig host u).colorScheme =
      (if host.hour ≥ 19 ∨ host.hour < 7 then ColorScheme.dark else ColorScheme.light) := rfl
  rw [hcs]
  by_cases hc : host.hour ≥ 19 ∨ host.hour < 7
  · rw [if_pos hc]
    simp only [true_iff]
    omega
  · rw [if_neg hc]
    simp
    omega

/-- C4 (confirmed): the extraction callback returns at most
`maxResults` records.  It is a total function of the page model, so it
cannot throw; the empty list is a possible (valid) outcome. -/
theorem C4_extract_at_most_max (page : Page) (N : Nat) :
    (extractResults page N).length ≤ N := by
  simp only [extractResults]
  split_ifs <;> simp [List.length_take]

/-! ## Extraction invariants -/

/-- A record satisfying the retention rules: non-empty title and an
`http`-prefixed link. -/
def GoodRecord (r : SearchResult) : Prop :=
  r.title ≠ "" ∧ jsStartsWith r.link "http" = true

/-- Invariant of the extraction accumulator: the seen set is exactly the
list of links of the gathered records, it has no duplicates, and every
gathered record is good. -/
def GoodState (st : ExtractState) : Prop :=
  st.seen = st.results.map (fun r => r.link) ∧
  st.seen.Nodup ∧
  ∀ r ∈ st.results, GoodRecord r

/-- Pushing an unseen good record preserves the invariant. -/
theorem goodState_push (st : ExtractState) (title link snippet : String)
    (h : GoodState st) (htitle : title ≠ "") (hhttp : jsStartsWith link "http" = true)
    (hnot : link ∉ st.seen) :
    GoodState { results := st.results ++ [{ title := title, link := link, snippet := snippet }],
                seen := st.seen ++ [link] } := by
  obtain ⟨hseen, hnd, hrec⟩ := h
  refine ⟨?_, ?_, ?_⟩
  · simp [List.map_append, hseen]
  · rw [List.nodup_append]
    refine ⟨hnd, List.nodup_singleton link, ?_⟩
    intro x hx hx2
    simp only [List.mem_singleton] at hx2
    exact hnot (hx2 ▸ hx)
  · intro r hr
    rcases List.mem_append.mp hr with hmem | hmem
    · exact hrec r hmem
    · simp only [List.mem_singleton] at hmem
      subst hmem
      exact ⟨htitle, hhttp⟩

/-- Processing one container preserves the invariant. -/
theorem goodState_processContainer (sel : SelectorSet) (c : Container) (st : ExtractState)
    (h : GoodState st) : GoodState (processContainer sel c st) := by
  unfold processContainer
  cases hty : c.titleFor sel.title with
  | none => exact h
  | some t =>
    by_cases hc : (resolveLink c t = "" ∨ jsStartsWith (resolveLink c t) "http" = false ∨
        resolveLink c t ∈ st.seen)
    · simp only [if_pos hc]
      exact h
    · simp only [if_neg hc]
      push_neg at hc
      obtain ⟨h1, h2, h3⟩ := hc
      have h2t : jsStartsWith (resolveLink c t) "http" = true := by
        revert h2
        cases jsStartsWith (resolveLink c t) "http" <;> simp
      by_cases ht : (jsTrim t.text ≠ "" ∧ resolveLink c t ≠ "")
      · simp only [if_pos ht]
        exact goodState_push st _ _ _ h ht.1 h2t h3
      · simp only [if_neg ht]
        exact h

/-- The inner container loop preserves the invariant. -/
theorem goodState_runContainers (sel : SelectorSet) (N : Nat) (cs : List Container) :
    ∀ st, GoodState st → GoodState (runContainers sel N cs st) := by
  induction cs with
  | nil => intro st h; exact h
  | cons c rest ih =>
    intro st h
    unfold runContainers
    by_cases hb : N ≤ st.results.length
    · simp only [if_pos hb]
      exact h
    · simp only [if_neg hb]
      exact ih _ (goodState_processContainer sel c st h)

/-- The outer strategy loop preserves the invariant. -/
theorem goodState_runSelectorSets (page : Page) (N : Nat) (sets : List SelectorSet) :
    ∀ st, GoodState st → GoodState (runSelectorSets page N sets st) := by
  induction sets with
  | nil => intro st h; exact h
  | cons sel rest ih =>
    intro st h
    unfold runSelectorSets
    by_cases hb : N ≤ st.results.length
    · simp only [if_pos hb]
      exact h
    · simp only [if_neg hb]
      exact ih _ (goodState_runContainers sel N (page.containersFor sel.container) st h)

/-- The fallback anchor scan preserves the invariant, provided every
scanned anchor has an `http`-prefixed href (which the fallback's
`a[href^='http']` selector guarantees). -/
theorem goodState_fallbackLoop (N : Nat) (as : List Anchor) :
    ∀ st, GoodState st → (∀ a ∈ as, jsStartsWith a.href "http" = true) →
      GoodState (fallbackLoop N as st) := by
  induction as with
  | nil => intro st h _; exact h
  | cons a rest ih =>
    intro st h ha
    have harest : ∀ x ∈ rest, jsStartsWith x.href "http" = true :=
      fun x hx => ha x (List.mem_cons_of_mem a hx)
    unfold fallbackLoop
    by_cases hb : N ≤ st.results.length
    · simp only [if_pos hb]
      exact h
    · simp only [if_neg hb]
      by_cases hskip : (a.href = "" ∨ a.href ∈ st.seen ∨
          strContains a.href "google.com/" = true ∨
          strContains a.href "accounts.google" = true ∨
          strContains a.href "support.google" = true)
      · simp only [if_pos hskip]
        exact ih st h harest
      · simp only [if_neg hskip]
        push_neg at hskip
        by_cases htitle : jsTrim a.text = ""
        · simp only [if_pos htitle]
          exact ih st h harest
        · simp only [if_neg htitle]
          exact ih _ (goodState_push st _ _ _ h htitle (ha a (List.mem_cons_self a rest))
            hskip.2.1) harest

/-- The state after both passes (before truncation). -/
def finalState (page : Page) (N : Nat) : ExtractState :=
  if (primaryState page N).results.length < N then
    fallbackLoop N (httpAnchors page) (primaryState page N)
  else primaryState page N

/-- Unfolding of `extractResults` through `finalState`. -/
theorem extractResults_eq_final (page : Page) (N : Nat) :
    extractResults page N = (finalState page N).results.take N := rfl

/-- The empty accumulator satisfies the invariant. -/
theorem goodState_empty : GoodState emptyExtract :=
  ⟨rfl, List.nodup_nil, fun r hr => absurd hr (List.not_mem_nil r)⟩

/-- The primary pass establishes the invariant. -/
theorem goodState_primary (page : Page) (N : Nat) : GoodState (primaryState page N) :=
  goodState_runSelectorSets page N selectorSets emptyExtract goodState_empty

/-- The final state satisfies the invariant. -/
theorem goodState_final (page : Page) (N : Nat) : GoodState (finalState page N) := by
  unfold finalState
  by_cases hlt : (primaryState page N).results.length < N
  · simp only [if_pos hlt]
    refine goodState_fallbackLoop N (httpAnchors page) _ (goodState_primary page N) ?_
    intro a ha
    simp only [httpAnchors, List.mem_filter] at ha
    exact ha.2
  · simp only [if_neg hlt]
    exact goodState_primary page N

/-- C3 (confirmed): for every rendered page and every `maxResults`, the
extraction output contains no two records with the same link, and every
returned record has a non-empty title and an `http`-prefixed link. -/
theorem C3_extraction_invariants (page : Page) (N : Nat) :
    ((extractResults page N).map (fun r => r.link)).Nodup ∧
    ∀ r ∈ extractResults page N, r.title ≠ "" ∧ jsStartsWith r.link "http" = true := by
  obtain ⟨hseen, hnd, hrec⟩ := goodState_final page N
  rw [extractResults_eq_final]
  constructor
  · have hnd2 : ((finalState page N).results.map (fun r => r.link)).Nodup := hseen ▸ hnd
    have hmt : (List.take N (finalState page N).results).map (fun r => r.link) =
        List.take N ((finalState page N).results.map (fun r => r.link)) := by
      simp [List.map_take]
    rw [hmt]
    exact List.Nodup.sublist (List.take_sublist N _) hnd2
  · intro r hr
    exact hrec r (List.Sublist.subset (List.take_sublist N _) hr)

/-! ## Length bounds and fallback characterization -/

/-- Processing one container grows the result list by at most one. -/
theorem processContainer_length (sel : SelectorSet) (c : Container) (st : ExtractState) :
    (processContainer sel c st).results.length ≤ st.results.length + 1 := by
  unfold processContainer
  cases hty : c.titleFor sel.title with
  | none => exact Nat.le_succ _
  | some t =>
    by_cases hc : (resolveLink c t = "" ∨ jsStartsWith (resolveLink c t) "http" = false ∨
        resolveLink c t ∈ st.seen)
    · simp only [if_pos hc]
      omega
    · simp only [if_neg hc]
      by_cases ht : (jsTrim t.text ≠ "" ∧ resolveLink c t ≠ "")
      · simp only [if_pos ht, List.length_append, List.length_singleton]
        omega
      · simp only [if_neg ht]
        omega

/-- The container loop never pushes the result list past `maxResults`. -/
theorem runContainers_length_le (sel : SelectorSet) (N : Nat) (cs : List Container) :
    ∀ st, st.results.length ≤ N → (runContainers sel N cs st).results.length ≤ N := by
  induction cs with
  | nil => intro st h; exact h
  | cons c rest ih =>
    intro st h
    unfold runContainers
    by_cases hb : N ≤ st.results.length
    · simp only [if_pos hb]
      exact h
    · simp only [if_neg hb]
      apply ih
      have hpc := processContainer_length sel c st
      omega

/-- The strategy loop never pushes the result list past `maxResults`. -/
theorem runSelectorSets_length_le (page : Page) (N : Nat) (sets : List SelectorSet) :
    ∀ st, st.results.length ≤ N → (runSelectorSets page N sets st).results.length ≤ N := by
  induction sets with
  | nil => intro st h; exact h
  | cons sel rest ih =>
    intro st h
    unfold runSelectorSets
    by_cases hb : N ≤ st.results.length
    · simp only [if_pos hb]
      exact h
    · simp only [if_neg hb]
      exact ih _ (runContainers_length_le sel N (page.containersFor sel.container) st h)

/-- The primary pass yields at most `maxResults` records. -/
theorem primary_length_le (page : Page) (N : Nat) :
    (primaryState page N).results.length ≤ N :=
  runSelectorSets_length_le page N selectorSets emptyExtract (Nat.zero_le N)

/-- The fallback scan never pushes the result list past `maxResults`. -/
theorem fallbackLoop_length_le (N : Nat) (as : List Anchor) :
    ∀ st, st.results.length ≤ N → (fallbackLoop N as st).results.length ≤ N := by
  induction as with
  | nil => intro st h; exact h
  | cons a rest ih =>
    intro st h
    unfold fallbackLoop
    by_cases hb : N ≤ st.results.length
    · simp only [if_pos hb]
      exact h
    · simp only [if_neg hb]
      by_cases hskip : (a.href = "" ∨ a.href ∈ st.seen ∨
          strContains a.href "google.com/" = true ∨
          strContains a.href "accounts.google" = true ∨
          strContains a.href "support.google" = true)
      · simp only [if_pos hskip]
        exact ih st h
      · simp only [if_neg hskip]
        by_cases htitle : jsTrim a.text = ""
        · simp only [if_pos htitle]
          exact ih st h
        · simp only [if_neg htitle]
          apply ih
          simp only [List.length_append, List.length_singleton]
          omega

/-- Every record present after the fallback scan was either already
gathered before it, or comes from one of the scanned anchors and passed
all the skip filters: non-empty trimmed anchor text as title, the
anchor's href as link, not previously seen, and free of the
`google.com/`, `accounts.google` and `support.google` markers. -/
theorem fallbackLoop_mem (N : Nat) (as : List Anchor) :
    ∀ (st : ExtractState) (r : SearchResult), r ∈ (fallbackLoop N as st).results →
      r ∈ st.results ∨
      ∃ a, a ∈ as ∧ r.title = jsTrim a.text ∧ r.link = a.href ∧ jsTrim a.text ≠ "" ∧
        r.link ∉ st.seen ∧
        strContains r.link "google.com/" = false ∧
        strContains r.link "accounts.google" = false ∧
        strContains r.link "support.google" = false := by
  induction as with
  | nil =>
    intro st r hr
    left
    simpa [fallbackLoop] using hr
  | cons a rest ih =>
    intro st r hr
    unfold fallbackLoop at hr
    by_cases hb : N ≤ st.results.length
    · simp only [if_pos hb] at hr
      exact Or.inl hr
    · simp only [if_neg hb] at hr
      by_cases hskip : (a.href = "" ∨ a.href ∈ st.seen ∨
          strContains a.href "google.com/" = true ∨
          strContains a.href "accounts.google" = true ∨
          strContains a.href "support.google" = true)
      · simp only [if_pos hskip] at hr
        rcases ih st r hr with hm | ⟨a2, ha2, hprops⟩
        · exact Or.inl hm
        · exact Or.inr ⟨a2, List.mem_cons_of_mem a ha2, hprops⟩
      · simp only [if_neg hskip] at hr
        push_neg at hskip
        obtain ⟨hne, hseen2, hg1, hg2, hg3⟩ := hskip
        have hg1f : strContains a.href "google.com/" = false := by
          revert hg1; cases strContains a.href "google.com/" <;> simp
        have hg2f : strContains a.href "accounts.google" = false := by
          revert hg2; cases strContains a.href "accounts.google" <;> simp
        have hg3f : strContains a.href "support.google" = false := by
          revert hg3; cases strContains a.href "support.google" <;> simp
        by_cases htitle : jsTrim a.text = ""
        · simp only [if_pos htitle] at hr
          rcases ih st r hr with hm | ⟨a2, ha2, hprops⟩
          · exact Or.inl hm
          · exact Or.inr ⟨a2, List.mem_cons_of_mem a ha2, hprops⟩
        · simp only [if_neg htitle] at hr
          rcases ih _ r hr with hm | ⟨a2, ha2, h1, h2, h3, h4, h5, h6, h7⟩
          · rcases List.mem_append.mp hm with hm2 | hm2
            · exact Or.inl hm2
            · simp only [List.mem_singleton] at hm2
              subst hm2
              exact Or.inr ⟨a, List.mem_cons_self a rest, rfl, rfl, htitle, hseen2,
                hg1f, hg2f, hg3f⟩
          · refine Or.inr ⟨a2, List.mem_cons_of_mem a ha2, h1, h2, h3, ?_, h5, h6, h7⟩
            intro hmem
            exact h4 (List.mem_append.mpr (Or.inl hmem))

/-- C5 (confirmed): the fallback anchor scan runs exactly when the
primary pass yielded fewer than `maxResults` records; it scans the
`http`-prefixed anchors in document order; every record it appends comes
from such an anchor, has the anchor's non-empty trimmed text as title
and its href as link, was not already seen by the primary pass, and is
free of the `google.com/`, `accounts.google` and `support.google`
markers; and it appends at most enough records to reach `maxResults`. -/
theorem C5_fallback_scan (page : Page) (N : Nat) :
    (N ≤ (primaryState page N).results.length →
      extractResults page N = (primaryState page N).results.take N) ∧
    ((primaryState page N).results.length < N →
      extractResults page N =
        (fallbackLoop N (httpAnchors page) (primaryState page N)).results.take N) ∧
    (∀ r ∈ (fallbackLoop N (httpAnchors page) (primaryState page N)).results,
      r ∈ (primaryState page N).results ∨
      ∃ a, a ∈ httpAnchors page ∧ r.title = jsTrim a.text ∧ r.link = a.href ∧
        jsTrim a.text ≠ "" ∧ r.link ∉ (primaryState page N).seen ∧
        strContains r.link "google.com/" = false ∧
        strContains r.link "accounts.google" = false ∧
        strContains r.link "support.google" = false) ∧
    (fallbackLoop N (httpAnchors page) (primaryState page N)).results.length ≤ N := by
  refine ⟨?_, ?_, ?_, ?_⟩
  · intro h
    rw [extractResults_eq_final]
    unfold finalState
    rw [if_neg (Nat.not_lt.mpr h)]
  · intro h
    rw [extractResults_eq_final]
    unfold finalState
    rw [if_pos h]
  · exact fallbackLoop_mem N (httpAnchors page) (primaryState page N)
  · exact fallbackLoop_length_le N (httpAnchors page) (primaryState page N)
      (primary_length_le page N)

/-! ## Orchestration theorems -/

/-- The persistence block never closes a browser. -/
theorem closeMain_not_saveEvs (cfg : RunCfg) (o : Oracle) (n : Nat) (ss : SavedState) :
    Ev.closeMainBrowser ∉ saveEvs cfg o n ss := by
  unfold saveEvs
  split_ifs <;> simp

/-- When the browser instance was supplied externally, an assisted-mode
attempt never closes it: every `await browser.close()` site is guarded
by `!browserWasProvided`. -/
theorem closeMain_not_runAssisted (cfg : RunCfg) (o : Oracle) (n : Nat) (ss : SavedState)
    (hext : cfg.externalBrowser = true) :
    Ev.closeMainBrowser ∉ (runAssisted cfg o n ss).2 := by
  cases hp : o.pipeline n <;> cases hb : o.blocked n <;> cases hw : o.assistWaitOk n <;>
    simp [runAssisted, attemptFinish, acquireEvs, closeEvs, hext, hp, hb, hw,
      closeMain_not_saveEvs cfg o n]

/-- C1 (confirmed): when a challenge is detected in an automated
(headless) attempt and the browser was supplied externally, the run
restarts from navigation as an assisted-mode attempt, the trace shows a
brand-new owned headed browser being launched (the source immediately
closes this temporary instance again and the restarted attempt reuses
the external one), and the externally supplied browser is never
closed. -/
theorem C1_external_escalation (cfg : RunCfg) (o : Oracle) (n : Nat) (ss : SavedState)
    (hext : cfg.externalBrowser = true) (hb : o.blocked n = true) :
    (runAuto cfg o n ss).1 =
      (runAssisted cfg o (n + 1) (resolveDomain o (resolveFingerprint cfg o ss))).1 ∧
    (runAuto cfg o n ss).2 =
      Ev.useExternalBrowser :: Ev.closePage :: Ev.closeContext ::
        Ev.launchTempBrowser true :: Ev.closeTempBrowser ::
        (runAssisted cfg o (n + 1) (resolveDomain o (resolveFingerprint cfg o ss))).2 ∧
    Ev.closeMainBrowser ∉ (runAuto cfg o n ss).2 := by
  refine ⟨?_, ?_, ?_⟩
  · simp [runAuto, hb]
  · simp [runAuto, hb, hext, acquireEvs, challengeTeardown]
  · intro hmem
    simp [runAuto, hb, hext, acquireEvs, challengeTeardown] at hmem
    exact closeMain_not_runAssisted cfg o (n + 1) _ hext hmem

/-- C6 (confirmed): on a fatal pipeline error the query-path operation
returns a success-shaped response whose result list is exactly one
synthetic record describing the error, while the markup-fetch operation
raises the wrapped error to its caller. -/
theorem C6_error_reporting (cfg : RunCfg) (o : Oracle) (n : Nat) (ss : SavedState)
    (msg : String) (hb : o.blocked n = false) :
    (o.pipeline n = Except.error msg →
      (runAuto cfg o n ss).1 =
        { query := cfg.query,
          results := [{ title := "搜索失败", link := "",
                        snippet := "无法完成搜索，错误信息: " ++ msg }] }) ∧
    (o.htmlOutcome n = Except.error msg →
      (runHtmlAuto cfg o n ss).1 =
        Except.error ("Google 검색 페이지 HTML 가져오기 실패: " ++ msg)) := by
  constructor
  · intro hp
    simp [runAuto, hb, attemptFinish, hp, errorResponse]
  · intro hh
    simp [runHtmlAuto, hb, htmlFinish, hh, wrapHtmlErr]

/-- Classification of the persistence (file-writing) events. -/
def isPersistEv : Ev → Bool
  | Ev.mkdirStateDir => true
  | Ev.saveStateAttempt => true
  | Ev.saveFingerprintAttempt _ => true
  | _ => false

/-- An assisted-mode search attempt emits no persistence event under
`noSaveState`. -/
theorem runAssisted_persist_free (cfg : RunCfg) (o : Oracle) (n : Nat) (ss : SavedState)
    (h : cfg.noSaveState = true) :
    (runAssisted cfg o n ss).2.filter isPersistEv = [] := by
  cases hp : o.pipeline n <;> cases hb : o.blocked n <;> cases hw : o.assistWaitOk n <;>
    cases hx : cfg.externalBrowser <;>
    simp [runAssisted, attemptFinish, acquireEvs, closeEvs, saveEvs, h, hp, hb, hw, hx,
      isPersistEv]

/-- An automated-mode search attempt emits no persistence event under
`noSaveState`. -/
theorem runAuto_persist_free (cfg : RunCfg) (o : Oracle) (n : Nat) (ss : SavedState)
    (h : cfg.noSaveState = true) :
    (runAuto cfg o n ss).2.filter isPersistEv = [] := by
  have hA := runAssisted_persist_free cfg o (n + 1)
    (resolveDomain o (resolveFingerprint cfg o ss)) h
  cases hp : o.pipeline n <;> cases hb : o.blocked n <;> cases hx : cfg.externalBrowser <;>
    simp [runAuto, attemptFinish, acquireEvs, challengeTeardown, closeEvs, saveEvs, h,
      hp, hb, hx, isPersistEv, List.filter_append, hA]

/-- An assisted-mode HTML attempt emits no persistence event under
`noSaveState`. -/
theorem runHtmlAssisted_persist_free (cfg : RunCfg) (o : Oracle) (n : Nat) (ss : SavedState)
    (h : cfg.noSaveState = true) :
    (runHtmlAssisted cfg o n ss).2.filter isPersistEv = [] := by
  cases hh : o.htmlOutcome n <;> cases hb : o.blocked n <;> cases hw : o.assistWaitOk n <;>
    simp [runHtmlAssisted, htmlFinish, saveEvs, h, hh, hb, hw, isPersistEv]

/-- An automated-mode HTML attempt emits no persistence event under
`noSaveState`. -/
theorem runHtmlAuto_persist_free (cfg : RunCfg) (o : Oracle) (n : Nat) (ss : SavedState)
    (h : cfg.noSaveState = true) :
    (runHtmlAuto cfg o n ss).2.filter isPersistEv = [] := by
  have hA := runHtmlAssisted_persist_free cfg o (n + 1)
    (resolveDomain o (resolveFingerprint cfg o ss)) h
  cases hh : o.htmlOutcome n <;> cases hb : o.blocked n <;>
    simp [runHtmlAuto, htmlFinish, saveEvs, h, hh, hb, isPersistEv,
      List.filter_append, hA]

/-- C7 (confirmed): with `noSaveState = true`, neither the query-path
run nor the markup-fetch run emits any persistence event (directory
creation, session-state write, fingerprint write), whatever the run's
outcome — so the session state file and the fingerprint file are neither
created nor modified. -/
theorem C7_no_save_state (cfg : RunCfg) (fsm : FSModel) (o : Oracle)
    (h : cfg.noSaveState = true) :
    (googleSearchModel cfg fsm o).2.filter isPersistEv = [] ∧
    (getHtmlModel cfg fsm o).2.filter isPersistEv = [] :=
  ⟨runAuto_persist_free cfg o 0 _ h, runHtmlAuto_persist_free cfg o 0 _ h⟩

/-- C8 (confirmed): with persistence enabled, the session save is
attempted whatever the pipeline outcome (success or fatal error), the
state directory is created when missing, the fingerprint save is
attempted once the session save succeeded, and the success or failure of
the persistence step never changes the run's primary result. -/
theorem C8_best_effort_persistence (cfg : RunCfg) (o : Oracle) (n : Nat) (ss : SavedState)
    (hns : cfg.noSaveState = false) (hb : o.blocked n = false) :
    Ev.saveStateAttempt ∈ (runAuto cfg o n ss).2 ∧
    (o.stateDirMissing = true → Ev.mkdirStateDir ∈ (runAuto cfg o n ss).2) ∧
    (o.persistOk n = true →
      ∃ st, Ev.saveFingerprintAttempt st ∈ (runAuto cfg o n ss).2) ∧
    (∀ p q : Nat → Bool,
      (runAuto cfg { o with persistOk := p } n ss).1 =
        (runAuto cfg { o with persistOk := q } n ss).1) := by
  refine ⟨?_, ?_, ?_, ?_⟩
  · cases hp : o.pipeline n <;>
      simp [runAuto, hb, attemptFinish, hp, saveEvs, hns, acquireEvs, closeEvs]
  · intro hdir
    cases hp : o.pipeline n <;>
      simp [runAuto, hb, attemptFinish, hp, saveEvs, hns, hdir, acquireEvs, closeEvs]
  · intro hok
    refine ⟨resolveDomain o (resolveFingerprint cfg o ss), ?_⟩
    cases hp : o.pipeline n <;>
      simp [runAuto, hb, attemptFinish, hp, saveEvs, hns, hok, acquireEvs, closeEvs]
  · intro p q
    cases hp : o.pipeline n <;>
      simp [runAuto, hb, attemptFinish, hp]

/-- C10 (confirmed): when the session state file is absent, the loaded
saved state is empty no matter what the fingerprint file contains (it is
never read), a fresh identity is generated from the host, and — with
persistence enabled and the session save succeeding — the fingerprint
file is written with the freshly generated identity at the end of the
run, overwriting any stored one. -/
theorem C10_fingerprint_gated_on_state_file (cfg : RunCfg) (fsm : FSModel) (o : Oracle)
    (habsent : fsm.stateFileExists = false) :
    loadSavedState fsm = (false, {}) ∧
    (cfg.noSaveState = false → o.blocked 0 = false → o.persistOk 0 = true →
      ∃ st, Ev.saveFingerprintAttempt st ∈ (googleSearchModel cfg fsm o).2 ∧
        st.fingerprint = Option.some (getHostMachineConfig o.host cfg.locale)) := by
  have hload : loadSavedState fsm = (false, {}) := by
    simp [loadSavedState, habsent]
  refine ⟨hload, ?_⟩
  intro hns hb hok
  refine ⟨resolveDomain o (resolveFingerprint cfg o {}), ?_, ?_⟩
  · unfold googleSearchModel
    have h2 : (loadSavedState fsm).2 = {} := by rw [hload]
    rw [h2]
    cases hp : o.pipeline 0 <;>
      simp [runAuto, hb, attemptFinish, hp, saveEvs, hns, hok, acquireEvs, closeEvs]
  · simp [resolveFingerprint, resolveDomain]

/-! ## Concrete instances used by the claim witnesses -/

/-- A page with no strategy containers and two anchors, one of them an
`accounts.google` link. -/
def testPage : Page :=
  { containersFor := fun _ => [],
    anchors :=
      [ { href := "http://example.com/a", text := "Example site", ancestorTexts := [] },
        { href := "https://accounts.google.com/x", text := "Account", ancestorTexts := [] } ] }

/-- The record the fallback scan gathers from `testPage`. -/
def testRecord : SearchResult :=
  { title := "Example site", link := "http://example.com/a", snippet := "" }

/-- A container yielding one full primary-pass record. -/
def primaryContainer : Container :=
  { titleFor := fun _ => Option.some { text := "Primary title", linkInTitle := Option.some "https://primary.example/", ancestorAnchor := Option.none },
    snippetFor := fun _ => Option.some "A snippet",
    firstAnchorHref := Option.none,
    divNodes := [] }

/-- A page whose primary pass already yields a record. -/
def testPagePrimary : Page :=
  { containersFor := fun _ => [primaryContainer], anchors := [] }

/-- Default run configuration (the source's option defaults). -/
def testCfg : RunCfg :=
  { query := "q", limit := 10, stateFile := "./browser-state.json",
    noSaveState := false, locale := "ko-KR", externalBrowser := false }

/-- Same configuration with an externally supplied browser. -/
def testCfgExt : RunCfg := { testCfg with externalBrowser := true }

/-- Same configuration with persistence disabled. -/
def testCfgNoSave : RunCfg := { testCfg with noSaveState := true }

/-- An oracle whose first attempt hits a challenge page and whose later
attempts succeed. -/
def testOracle : Oracle :=
  { host := hostAt (-540) 2, domainIdx := 0,
    blocked := fun n => decide (n = 0),
    assistWaitOk := fun _ => true,
    waitErrMsg := fun _ => "timeout",
    pipeline := fun _ => Except.ok [],
    htmlOutcome := fun _ => Except.ok { html := "<main></main>", url := "https://www.google.com/search" },
    persistOk := fun _ => true,
    stateDirMissing := false }

/-- An oracle that never hits a challenge. -/
def testOracleOk : Oracle := { testOracle with blocked := fun _ => false }

/-- A challenge-free oracle with a missing state directory. -/
def testOracleDir : Oracle := { testOracleOk with stateDirMissing := true }

/-- A challenge-free oracle whose pipeline fails fatally. -/
def testOracleErr : Oracle :=
  { testOracleOk with pipeline := fun _ => Except.error "boom",
                      htmlOutcome := fun _ => Except.error "boom" }

/-- A file system with a session state file and no fingerprint file. -/
def testFsm : FSModel := { stateFileExists := true, fingerprintFile := Option.none }

/-- A stored identity distinct from any freshly generated one. -/
def staleFingerprint : FingerprintConfig :=
  { deviceName := "Desktop Firefox", locale := "en-GB", timezoneId := "Europe/London",
    colorScheme := ColorScheme.light, reducedMotion := ReducedMotion.reduce,
    forcedColors := ForcedColors.active }

/-- A file system whose session state file is absent while a readable
fingerprint file is present. -/
def testFsmAbsent : FSModel :=
  { stateFileExists := false,
    fingerprintFile := Option.some (Except.ok { fingerprint := Option.some staleFingerprint, googleDomain := Option.none }) }

/-- Witness for C1 at a concrete configuration and oracle. -/
theorem C1_escalation_witness :
    (runAuto testCfgExt testOracle 0 {}).1 =
      (runAssisted testCfgExt testOracle 1
        (resolveDomain testOracle (resolveFingerprint testCfgExt testOracle {}))).1 ∧
    (runAuto testCfgExt testOracle 0 {}).2 =
      Ev.useExternalBrowser :: Ev.closePage :: Ev.closeContext ::
        Ev.launchTempBrowser true :: Ev.closeTempBrowser ::
        (runAssisted testCfgExt testOracle 1
          (resolveDomain testOracle (resolveFingerprint testCfgExt testOracle {}))).2 ∧
    Ev.closeMainBrowser ∉ (runAuto testCfgExt testOracle 0 {}).2 :=
  C1_external_escalation testCfgExt testOracle 0 {} rfl rfl

/-- Witness for C3 at a concrete page. -/
theorem C3_invariants_witness :
    ((extractResults testPage 10).map (fun r => r.link)).Nodup ∧
    (testRecord.title ≠ "" ∧ jsStartsWith testRecord.link "http" = true) :=
  ⟨(C3_extraction_invariants testPage 10).1,
    (C3_extraction_invariants testPage 10).2 testRecord (by decide)⟩

/-- Witness for C5 at concrete pages: one where the primary pass already
filled the quota, one where the fallback scan runs. -/
theorem C5_fallback_witness :
    extractResults testPagePrimary 1 = (primaryState testPagePrimary 1).results.take 1 ∧
    extractResults testPage 10 =
      (fallbackLoop 10 (httpAnchors testPage) (primaryState testPage 10)).results.take 10 ∧
    (testRecord ∈ (primaryState testPage 10).results ∨
      ∃ a, a ∈ httpAnchors testPage ∧ testRecord.title = jsTrim a.text ∧
        testRecord.link = a.href ∧ jsTrim a.text ≠ "" ∧
        testRecord.link ∉ (primaryState testPage 10).seen ∧
        strContains testRecord.link "google.com/" = false ∧
        strContains testRecord.link "accounts.google" = false ∧
        strContains testRecord.link "support.google" = false) ∧
    (fallbackLoop 10 (httpAnchors testPage) (primaryState testPage 10)).results.length ≤ 10 :=
  ⟨(C5_fallback_scan testPagePrimary 1).1 (by decide),
    (C5_fallback_scan testPage 10).2.1 (by decide),
    (C5_fallback_scan testPage 10).2.2.1 testRecord (by decide),
    (C5_fallback_scan testPage 10).2.2.2⟩

/-- Witness for C6 at a concrete failing oracle. -/
theorem C6_error_witness :
    (runAuto testCfg testOracleErr 0 {}).1 =
      { query := testCfg.query,
        results := [{ title := "搜索失败", link := "",
                      snippet := "无法完成搜索，错误信息: " ++ "boom" }] } ∧
    (runHtmlAuto testCfg testOracleErr 0 {}).1 =
      Except.error ("Google 검색 페이지 HTML 가져오기 실패: " ++ "boom") :=
  ⟨(C6_error_reporting testCfg testOracleErr 0 {} "boom" rfl).1 rfl,
    (C6_error_reporting testCfg testOracleErr 0 {} "boom" rfl).2 rfl⟩

/-- Witness for C7 at a concrete configuration with `noSaveState`. -/
theorem C7_no_save_witness :
    (googleSearchModel testCfgNoSave testFsm testOracle).2.filter isPersistEv = [] ∧
    (getHtmlModel testCfgNoSave testFsm testOracle).2.filter isPersistEv = [] :=
  C7_no_save_state testCfgNoSave testFsm testOracle rfl

/-- Witness for C8 at a concrete oracle with a missing state directory. -/
theorem C8_persistence_witness :
    Ev.saveStateAttempt ∈ (runAuto testCfg testOracleDir 0 {}).2 ∧
    Ev.mkdirStateDir ∈ (runAuto testCfg testOracleDir 0 {}).2 ∧
    (∃ st, Ev.saveFingerprintAttempt st ∈ (runAuto testCfg testOracleDir 0 {}).2) ∧
    (runAuto testCfg { testOracleDir with persistOk := fun _ => true } 0 {}).1 =
      (runAuto testCfg { testOracleDir with persistOk := fun _ => false } 0 {}).1 := by
  have h := C8_best_effort_persistence testCfg testOracleDir 0 {} rfl rfl
  exact ⟨h.1, h.2.1 rfl, h.2.2.1 rfl, h.2.2.2 (fun _ => true) (fun _ => false)⟩

/-- Witness for C9 at host hour 2. -/
theorem C9_color_witness :
    (getHostMachineConfig (hostAt (-540) 2) "ko-KR").colorScheme = ColorScheme.dark ↔
      ((19 ≤ (hostAt (-540) 2).hour ∧ (hostAt (-540) 2).hour < 24) ∨
        (hostAt (-540) 2).hour < 7) :=
  C9_color_scheme_from_hour.1 (hostAt (-540) 2) "ko-KR" (by decide)

/-- Witness for C10 at a file system with an absent state file but a
present, readable fingerprint file. -/
theorem C10_state_gate_witness :
    loadSavedState testFsmAbsent = (false, {}) ∧
    (∃ st, Ev.saveFingerprintAttempt st ∈
        (googleSearchModel testCfg testFsmAbsent testOracleOk).2 ∧
      st.fingerprint = Option.some (getHostMachineConfig testOracleOk.host testCfg.locale)) := by
  have h := C10_fingerprint_gated_on_state_file testCfg testFsmAbsent testOracleOk rfl
  exact ⟨h.1, h.2 rfl rfl rfl⟩

end GoogleSearch
